import Mathlib

/-!
# zkbnb-eth-rpc: signing identity and rollup call dispatchers

A shallow embedding of `_rpc/auth.go` (`NewAuthClient`) and `core/zkbnb.go`
(the fourteen dispatchers in front of the rollup contract bindings), followed
by the properties the specification states about them.

Conventions of the embedding.

* A Go result pair `(x, err)` returned by the functions under study is kept as
  a pair of options, `none` standing for `nil`.
* A `*big.Int` is an `Option Int` (`none` is the nil pointer); a `uint64` is a
  `Nat` (no arithmetic is performed on it by the code under study).
* Functions and types that the two files use but do not declare (the key
  utilities, the options builders, the generated contract bindings, the
  go-ethereum and AWS types) are parameters of the embedding.
-/

namespace EthRpc

/-! ## Errors -/

/-- A Go `error` value: either a named error value, or an error of some kind
that wraps a lower-level cause. -/
inductive Error where
  | named (name : String)
  | wrapped (kind : String) (cause : Error)
deriving DecidableEq, Repr

/-- The package-level error value `ErrInvalidPrivateKey` of package `_rpc`. -/
def ErrInvalidPrivateKey : Error := .named "ErrInvalidPrivateKey"

/-! ## Key material (`_rpc/auth.go`) -/

/-- A `*big.Int`; `none` is the nil pointer. -/
abbrev BigInt := Option Int

/-- A `common.Address`, read as a 160-bit number. -/
abbrev Address := Nat

/-- The standard library's `ecdsa.PublicKey`: the affine coordinates of the point. -/
structure PublicKey where
  X : BigInt
  Y : BigInt
deriving DecidableEq, Repr

/-- The standard library's `ecdsa.PrivateKey`: the embedded public key and the scalar. -/
structure PrivateKey where
  PublicKey : PublicKey
  D : BigInt
deriving DecidableEq, Repr

/-- The struct `AuthClient` of `_rpc/auth.go`. -/
structure AuthClient where
  PrivateKey : PrivateKey
  PublicKey : PublicKey
  Address : Address
  ChainId : BigInt
deriving DecidableEq, Repr

/-- The functions `NewAuthClient` calls and does not declare: the two key
utilities of package `_utils` and go-ethereum's `crypto.PubkeyToAddress`. -/
structure KeyUtils where
  IsValidPrivateKey : String → Bool
  DecodePrivateKey : String → Except Error PrivateKey
  PubkeyToAddress : PublicKey → Address

/-- The function `NewAuthClient` of `_rpc/auth.go`. -/
def NewAuthClient (u : KeyUtils) (priKey : String) (chainId : BigInt) :
    Option AuthClient × Option Error :=
  -- validate private key
  if !u.IsValidPrivateKey priKey then
    (none, some ErrInvalidPrivateKey)
  else
    -- transfer private key str to private key
    match u.DecodePrivateKey priKey with
    | .error err => (none, some err)
    | .ok privateKey =>
      -- get public key
      let publicKey := privateKey.PublicKey
      let address := u.PubkeyToAddress publicKey
      (some { PrivateKey := privateKey, PublicKey := publicKey,
              Address := address, ChainId := chainId }, none)

/-! ### A sample set of key utilities

Validation is the syntactic check (sixty-four hexadecimal digits); decoding
reads the digits as a scalar and rejects zero and anything not below the group
order, as go-ethereum's `HexToECDSA` does.  The public point is not computed:
the sample carries the scalar in both coordinates. -/

/-- The order of the secp256k1 group. -/
def secp256k1N : Int :=
  0xFFFFFFFFFFFFFFFFFFFFFFFFFFFFFFFEBAAEDCE6AF48A03BBFD25E8CD0364141

/-- The value of one hexadecimal digit. -/
def hexDigit? (c : Char) : Option Nat :=
  if '0' ≤ c ∧ c ≤ '9' then some (c.toNat - '0'.toNat)
  else if 'a' ≤ c ∧ c ≤ 'f' then some (c.toNat - 'a'.toNat + 10)
  else if 'A' ≤ c ∧ c ≤ 'F' then some (c.toNat - 'A'.toNat + 10)
  else none

/-- The value of a string of hexadecimal digits, most significant first. -/
def hexValue? (cs : List Char) : Option Nat :=
  cs.foldl (fun acc c => acc.bind fun n => (hexDigit? c).map fun d => 16 * n + d) (some 0)

/-- Sample key utilities: a syntactic validator and a range-checking decoder. -/
def sampleKeyUtils : KeyUtils where
  IsValidPrivateKey := fun k => k.length == 64 && k.toList.all fun c => (hexDigit? c).isSome
  DecodePrivateKey := fun k =>
    match hexValue? k.toList with
    | none => .error (.named "invalid hex string")
    | some d =>
      if d = 0 ∨ secp256k1N ≤ (d : Int) then .error (.named "invalid private key")
      else .ok { PublicKey := { X := some d, Y := some d }, D := some d }
  PubkeyToAddress := fun p => (p.X.getD 0).toNat % 2 ^ 160

/-- Sixty-four zero digits: accepted by the syntactic validator, rejected by the decoder. -/
def zeroKey : String := "0000000000000000000000000000000000000000000000000000000000000000"

/-- The scalar one, written with sixty-four digits. -/
def oneKey : String := "0000000000000000000000000000000000000000000000000000000000000001"

/-! ## Declarations used by `core/zkbnb.go` -/

/-- A fixed-length Go array `[n]T`. -/
abbrev FixedArray (α : Type) (n : Nat) := { xs : List α // xs.length = n }

/-- The types that `core/zkbnb.go` names and does not declare: the provider
client of package `rpc`, the standard library's context, the AWS KMS client,
go-ethereum's transaction options, transaction and hash, and the payload
structs of the generated contract bindings; with them the two library methods
behind `tx.Hash().String()`. -/
structure Bindings where
  ProviderClient : Type
  Context : Type
  KmsClient : Type
  TransactOpts : Type
  Transaction : Type
  Hash : Type
  StorageStoredBlockInfo : Type
  ZkBNBCommitBlockInfo : Type
  ZkBNBVerifyAndExecuteBlockInfo : Type
  DesertVerifierAssetExitData : Type
  DesertVerifierAccountExitData : Type
  DesertVerifierNftExitData : Type
  txHash : Transaction → Hash
  hashString : Hash → String

/-- One call of an options builder, with the arguments it received in order. -/
inductive BuilderCall (B : Bindings) where
  | ConstructTransactOpts (cli : B.ProviderClient) (authCli : AuthClient)
      (gasPrice : BigInt) (gasLimit : Nat)
  | ConstructTransactOptsWithNonce (authCli : AuthClient)
      (gasPrice : BigInt) (gasLimit : Nat) (nonce : Nat)
  | ConstructTransactOptsWithNonceAndKms (ctx : B.Context) (kmsSvc : B.KmsClient)
      (keyId : String) (chainID : BigInt) (address : Address)
      (gasPrice : BigInt) (gasLimit : Nat) (nonce : Nat)
  | ConstructTransactOptsWithKms (cli : B.ProviderClient) (ctx : B.Context)
      (kmsSvc : B.KmsClient) (keyId : String) (chainID : BigInt) (address : Address)
      (gasPrice : BigInt) (gasLimit : Nat)

/-- One call of a method of the contract binding, with the arguments it
received in order. -/
inductive ContractCall (B : Bindings) where
  | CommitBlocks (opts : B.TransactOpts) (lastBlock : B.StorageStoredBlockInfo)
      (commitBlocksInfo : List B.ZkBNBCommitBlockInfo)
  | VerifyAndExecuteBlocks (opts : B.TransactOpts)
      (verifyAndExecuteBlocksInfo : List B.ZkBNBVerifyAndExecuteBlockInfo)
      (proofs : List BigInt)
  | RevertBlocks (opts : B.TransactOpts) (revertBlocks : List B.StorageStoredBlockInfo)
  | PerformDesert (opts : B.TransactOpts) (storedBlockInfo : B.StorageStoredBlockInfo)
      (nftRoot : BigInt) (assetExitData : B.DesertVerifierAssetExitData)
      (accountExitData : B.DesertVerifierAccountExitData)
      (assetMerkleProof : FixedArray BigInt 16) (accountMerkleProof : FixedArray BigInt 32)
  | PerformDesertNft (opts : B.TransactOpts) (storedBlockInfo : B.StorageStoredBlockInfo)
      (assetRoot : BigInt) (accountExitData : B.DesertVerifierAccountExitData)
      (exitNfts : List B.DesertVerifierNftExitData)
      (accountMerkleProof : FixedArray BigInt 32)
      (nftMerkleProofs : List (FixedArray BigInt 40))
  | WithdrawPendingBalance (opts : B.TransactOpts) (owner : Address) (token : Address)
      (amount : BigInt)
  | WithdrawPendingNFTBalance (opts : B.TransactOpts) (nftIndex : BigInt)
  | CancelOutstandingDepositsForDesertMode (opts : B.TransactOpts)
      (priorityRequestId : Nat) (depositsPubData : List (List Nat))
  | ActivateDesertMode (opts : B.TransactOpts)

/-- What a dispatcher does to its collaborators, in order. -/
inductive Event (B : Bindings) where
  | build (c : BuilderCall B)
  | invoke (c : ContractCall B)

/-- The result of a call together with the collaborator calls it made. -/
abbrev Traced (B : Bindings) (α : Type) := α × List (Event B)

/-- The options builders of package `core`, declared outside `zkbnb.go`: what
each call returns. -/
structure OptsBuilder (B : Bindings) where
  result : BuilderCall B → Except Error B.TransactOpts

/-- The contract binding `ZkBNB`, declared outside `zkbnb.go`: what each
method call returns. -/
structure ZkBNB (B : Bindings) where
  result : ContractCall B → Except Error B.Transaction

variable {B : Bindings}

/-- Perform one builder call: its result and the record of the call. -/
def OptsBuilder.call (b : OptsBuilder B) (c : BuilderCall B) :
    Traced B (Except Error B.TransactOpts) :=
  (b.result c, [.build c])

/-- Perform one contract call: its result and the record of the call. -/
def ZkBNB.call (inst : ZkBNB B) (c : ContractCall B) :
    Traced B (Except Error B.Transaction) :=
  (inst.result c, [.invoke c])

/-- The builder `ConstructTransactOpts`. -/
def ConstructTransactOpts (b : OptsBuilder B) (cli : B.ProviderClient) (authCli : AuthClient)
    (gasPrice : BigInt) (gasLimit : Nat) : Traced B (Except Error B.TransactOpts) :=
  b.call (.ConstructTransactOpts cli authCli gasPrice gasLimit)

/-- The builder `ConstructTransactOptsWithNonce`. -/
def ConstructTransactOptsWithNonce (b : OptsBuilder B) (authCli : AuthClient)
    (gasPrice : BigInt) (gasLimit : Nat) (nonce : Nat) :
    Traced B (Except Error B.TransactOpts) :=
  b.call (.ConstructTransactOptsWithNonce authCli gasPrice gasLimit nonce)

/-- The builder `ConstructTransactOptsWithNonceAndKms`. -/
def ConstructTransactOptsWithNonceAndKms (b : OptsBuilder B) (ctx : B.Context)
    (kmsSvc : B.KmsClient) (keyId : String) (chainID : BigInt) (address : Address)
    (gasPrice : BigInt) (gasLimit : Nat) (nonce : Nat) :
    Traced B (Except Error B.TransactOpts) :=
  b.call (.ConstructTransactOptsWithNonceAndKms ctx kmsSvc keyId chainID address
    gasPrice gasLimit nonce)

/-- The builder `ConstructTransactOptsWithKms`. -/
def ConstructTransactOptsWithKms (b : OptsBuilder B) (cli : B.ProviderClient)
    (ctx : B.Context) (kmsSvc : B.KmsClient) (keyId : String) (chainID : BigInt)
    (address : Address) (gasPrice : BigInt) (gasLimit : Nat) :
    Traced B (Except Error B.TransactOpts) :=
  b.call (.ConstructTransactOptsWithKms cli ctx kmsSvc keyId chainID address
    gasPrice gasLimit)

/-- The binding method `CommitBlocks`. -/
def ZkBNB.CommitBlocks (inst : ZkBNB B) (opts : B.TransactOpts)
    (lastBlock : B.StorageStoredBlockInfo) (commitBlocksInfo : List B.ZkBNBCommitBlockInfo) :
    Traced B (Except Error B.Transaction) :=
  inst.call (.CommitBlocks opts lastBlock commitBlocksInfo)

/-- The binding method `VerifyAndExecuteBlocks`. -/
def ZkBNB.VerifyAndExecuteBlocks (inst : ZkBNB B) (opts : B.TransactOpts)
    (verifyAndExecuteBlocksInfo : List B.ZkBNBVerifyAndExecuteBlockInfo)
    (proofs : List BigInt) : Traced B (Except Error B.Transaction) :=
  inst.call (.VerifyAndExecuteBlocks opts verifyAndExecuteBlocksInfo proofs)

/-- The binding method `RevertBlocks`. -/
def ZkBNB.RevertBlocks (inst : ZkBNB B) (opts : B.TransactOpts)
    (revertBlocks : List B.StorageStoredBlockInfo) : Traced B (Except Error B.Transaction) :=
  inst.call (.RevertBlocks opts revertBlocks)

/-- The binding method `PerformDesert`. -/
def ZkBNB.PerformDesert (inst : ZkBNB B) (opts : B.TransactOpts)
    (storedBlockInfo : B.StorageStoredBlockInfo) (nftRoot : BigInt)
    (assetExitData : B.DesertVerifierAssetExitData)
    (accountExitData : B.DesertVerifierAccountExitData)
    (assetMerkleProof : FixedArray BigInt 16) (accountMerkleProof : FixedArray BigInt 32) :
    Traced B (Except Error B.Transaction) :=
  inst.call (.PerformDesert opts storedBlockInfo nftRoot assetExitData accountExitData
    assetMerkleProof accountMerkleProof)

/-- The binding method `PerformDesertNft`. -/
def ZkBNB.PerformDesertNft (inst : ZkBNB B) (opts : B.TransactOpts)
    (storedBlockInfo : B.StorageStoredBlockInfo) (assetRoot : BigInt)
    (accountExitData : B.DesertVerifierAccountExitData)
    (exitNfts : List B.DesertVerifierNftExitData)
    (accountMerkleProof : FixedArray BigInt 32)
    (nftMerkleProofs : List (FixedArray BigInt 40)) :
    Traced B (Except Error B.Transaction) :=
  inst.call (.PerformDesertNft opts storedBlockInfo assetRoot accountExitData exitNfts
    accountMerkleProof nftMerkleProofs)

/-- The binding method `WithdrawPendingBalance`. -/
def ZkBNB.WithdrawPendingBalance (inst : ZkBNB B) (opts : B.TransactOpts)
    (owner : Address) (token : Address) (amount : BigInt) :
    Traced B (Except Error B.Transaction) :=
  inst.call (.WithdrawPendingBalance opts owner token amount)

/-- The binding method `WithdrawPendingNFTBalance`. -/
def ZkBNB.WithdrawPendingNFTBalance (inst : ZkBNB B) (opts : B.TransactOpts)
    (nftIndex : BigInt) : Traced B (Except Error B.Transaction) :=
  inst.call (.WithdrawPendingNFTBalance opts nftIndex)

/-- The binding method `CancelOutstandingDepositsForDesertMode`. -/
def ZkBNB.CancelOutstandingDepositsForDesertMode (inst : ZkBNB B) (opts : B.TransactOpts)
    (priorityRequestId : Nat) (depositsPubData : List (List Nat)) :
    Traced B (Except Error B.Transaction) :=
  inst.call (.CancelOutstandingDepositsForDesertMode opts priorityRequestId depositsPubData)

/-- The binding method `ActivateDesertMode`. -/
def ZkBNB.ActivateDesertMode (inst : ZkBNB B) (opts : B.TransactOpts) :
    Traced B (Except Error B.Transaction) :=
  inst.call (.ActivateDesertMode opts)

/-! ## The dispatchers (`core/zkbnb.go`)

Each returns the pair `(txHash, err)` and the collaborator calls it made. -/

/-- The dispatcher `CommitBlocks`. -/
def CommitBlocks (b : OptsBuilder B) (cli : B.ProviderClient) (authCli : AuthClient) (inst : ZkBNB B)
    (lastBlock : B.StorageStoredBlockInfo) (commitBlocksInfo : List B.ZkBNBCommitBlockInfo)
    (gasPrice : BigInt) (gasLimit : Nat) : Traced B (String × Option Error) :=
  match ConstructTransactOpts b cli authCli gasPrice gasLimit with
  | (.error err, t) => (("", some err), t)
  | (.ok transactOpts, t) =>
    match inst.CommitBlocks transactOpts lastBlock commitBlocksInfo with
    | (.error err, u) => (("", some err), t ++ u)
    | (.ok tx, u) => ((B.hashString (B.txHash tx), none), t ++ u)

/-- The dispatcher `CommitBlocksWithNonce`. -/
def CommitBlocksWithNonce (b : OptsBuilder B) (authCli : AuthClient) (inst : ZkBNB B)
    (lastBlock : B.StorageStoredBlockInfo) (commitBlocksInfo : List B.ZkBNBCommitBlockInfo)
    (gasPrice : BigInt) (gasLimit : Nat) (nonce : Nat) : Traced B (String × Option Error) :=
  match ConstructTransactOptsWithNonce b authCli gasPrice gasLimit nonce with
  | (.error err, t) => (("", some err), t)
  | (.ok transactOpts, t) =>
    match inst.CommitBlocks transactOpts lastBlock commitBlocksInfo with
    | (.error err, u) => (("", some err), t ++ u)
    | (.ok tx, u) => ((B.hashString (B.txHash tx), none), t ++ u)

/-- The dispatcher `CommitBlocksWithNonceAndKms`. -/
def CommitBlocksWithNonceAndKms (b : OptsBuilder B) (ctx : B.Context) (kmsSvc : B.KmsClient)
    (keyId : String) (chainID : BigInt) (address : Address) (inst : ZkBNB B)
    (lastBlock : B.StorageStoredBlockInfo) (commitBlocksInfo : List B.ZkBNBCommitBlockInfo)
    (gasPrice : BigInt) (gasLimit : Nat) (nonce : Nat) : Traced B (String × Option Error) :=
  match ConstructTransactOptsWithNonceAndKms b ctx kmsSvc keyId chainID address
      gasPrice gasLimit nonce with
  | (.error err, t) => (("", some err), t)
  | (.ok transactOpts, t) =>
    match inst.CommitBlocks transactOpts lastBlock commitBlocksInfo with
    | (.error err, u) => (("", some err), t ++ u)
    | (.ok tx, u) => ((B.hashString (B.txHash tx), none), t ++ u)

/-- The dispatcher `VerifyAndExecuteBlocks`. -/
def VerifyAndExecuteBlocks (b : OptsBuilder B) (cli : B.ProviderClient) (authCli : AuthClient) (inst : ZkBNB B)
    (verifyAndExecuteBlocksInfo : List B.ZkBNBVerifyAndExecuteBlockInfo) (proofs : List BigInt)
    (gasPrice : BigInt) (gasLimit : Nat) : Traced B (String × Option Error) :=
  match ConstructTransactOpts b cli authCli gasPrice gasLimit with
  | (.error err, t) => (("", some err), t)
  | (.ok transactOpts, t) =>
    match inst.VerifyAndExecuteBlocks transactOpts verifyAndExecuteBlocksInfo proofs with
    | (.error err, u) => (("", some err), t ++ u)
    | (.ok tx, u) => ((B.hashString (B.txHash tx), none), t ++ u)

/-- The dispatcher `VerifyAndExecuteBlocksWithNonce`. -/
def VerifyAndExecuteBlocksWithNonce (b : OptsBuilder B) (authCli : AuthClient) (inst : ZkBNB B)
    (verifyAndExecuteBlocksInfo : List B.ZkBNBVerifyAndExecuteBlockInfo) (proofs : List BigInt)
    (gasPrice : BigInt) (gasLimit : Nat) (nonce : Nat) : Traced B (String × Option Error) :=
  match ConstructTransactOptsWithNonce b authCli gasPrice gasLimit nonce with
  | (.error err, t) => (("", some err), t)
  | (.ok transactOpts, t) =>
    match inst.VerifyAndExecuteBlocks transactOpts verifyAndExecuteBlocksInfo proofs with
    | (.error err, u) => (("", some err), t ++ u)
    | (.ok tx, u) => ((B.hashString (B.txHash tx), none), t ++ u)

/-- The dispatcher `VerifyAndExecuteBlocksWithNonceAndKms`. -/
def VerifyAndExecuteBlocksWithNonceAndKms (b : OptsBuilder B) (ctx : B.Context) (kmsSvc : B.KmsClient)
    (keyId : String) (chainID : BigInt) (address : Address) (inst : ZkBNB B)
    (verifyAndExecuteBlocksInfo : List B.ZkBNBVerifyAndExecuteBlockInfo) (proofs : List BigInt)
    (gasPrice : BigInt) (gasLimit : Nat) (nonce : Nat) : Traced B (String × Option Error) :=
  match ConstructTransactOptsWithNonceAndKms b ctx kmsSvc keyId chainID address
      gasPrice gasLimit nonce with
  | (.error err, t) => (("", some err), t)
  | (.ok transactOpts, t) =>
    match inst.VerifyAndExecuteBlocks transactOpts verifyAndExecuteBlocksInfo proofs with
    | (.error err, u) => (("", some err), t ++ u)
    | (.ok tx, u) => ((B.hashString (B.txHash tx), none), t ++ u)

/-- The dispatcher `RevertBlocks`. -/
def RevertBlocks (b : OptsBuilder B) (cli : B.ProviderClient) (authCli : AuthClient) (inst : ZkBNB B)
    (revertBlocks : List B.StorageStoredBlockInfo)
    (gasPrice : BigInt) (gasLimit : Nat) : Traced B (String × Option Error) :=
  match ConstructTransactOpts b cli authCli gasPrice gasLimit with
  | (.error err, t) => (("", some err), t)
  | (.ok transactOpts, t) =>
    match inst.RevertBlocks transactOpts revertBlocks with
    | (.error err, u) => (("", some err), t ++ u)
    | (.ok tx, u) => ((B.hashString (B.txHash tx), none), t ++ u)

/-- The dispatcher `RevertBlocksWithKms`. -/
def RevertBlocksWithKms (b : OptsBuilder B) (cli : B.ProviderClient) (ctx : B.Context)
    (kmsSvc : B.KmsClient) (keyId : String) (chainID : BigInt) (address : Address)
    (inst : ZkBNB B)
    (revertBlocks : List B.StorageStoredBlockInfo)
    (gasPrice : BigInt) (gasLimit : Nat) : Traced B (String × Option Error) :=
  match ConstructTransactOptsWithKms b cli ctx kmsSvc keyId chainID address
      gasPrice gasLimit with
  | (.error err, t) => (("", some err), t)
  | (.ok transactOpts, t) =>
    match inst.RevertBlocks transactOpts revertBlocks with
    | (.error err, u) => (("", some err), t ++ u)
    | (.ok tx, u) => ((B.hashString (B.txHash tx), none), t ++ u)

/-- The dispatcher `PerformDesert`. -/
def PerformDesert (b : OptsBuilder B) (cli : B.ProviderClient) (authCli : AuthClient) (inst : ZkBNB B)
    (storedBlockInfo : B.StorageStoredBlockInfo) (nftRoot : BigInt)
    (assetExitData : B.DesertVerifierAssetExitData)
    (accountExitData : B.DesertVerifierAccountExitData)
    (assetMerkleProof : FixedArray BigInt 16) (accountMerkleProof : FixedArray BigInt 32)
    (gasPrice : BigInt) (gasLimit : Nat) : Traced B (String × Option Error) :=
  match ConstructTransactOpts b cli authCli gasPrice gasLimit with
  | (.error err, t) => (("", some err), t)
  | (.ok transactOpts, t) =>
    match inst.PerformDesert transactOpts storedBlockInfo nftRoot assetExitData accountExitData
      assetMerkleProof accountMerkleProof with
    | (.error err, u) => (("", some err), t ++ u)
    | (.ok tx, u) => ((B.hashString (B.txHash tx), none), t ++ u)

/-- The dispatcher `PerformDesertNft`. -/
def PerformDesertNft (b : OptsBuilder B) (cli : B.ProviderClient) (authCli : AuthClient) (inst : ZkBNB B)
    (storedBlockInfo : B.StorageStoredBlockInfo) (assetRoot : BigInt)
    (accountExitData : B.DesertVerifierAccountExitData)
    (exitNfts : List B.DesertVerifierNftExitData)
    (accountMerkleProof : FixedArray BigInt 32)
    (nftMerkleProofs : List (FixedArray BigInt 40))
    (gasPrice : BigInt) (gasLimit : Nat) : Traced B (String × Option Error) :=
  match ConstructTransactOpts b cli authCli gasPrice gasLimit with
  | (.error err, t) => (("", some err), t)
  | (.ok transactOpts, t) =>
    match inst.PerformDesertNft transactOpts storedBlockInfo assetRoot accountExitData exitNfts
      accountMerkleProof nftMerkleProofs with
    | (.error err, u) => (("", some err), t ++ u)
    | (.ok tx, u) => ((B.hashString (B.txHash tx), none), t ++ u)

/-- The dispatcher `WithdrawPendingBalance`. -/
def WithdrawPendingBalance (b : OptsBuilder B) (cli : B.ProviderClient) (authCli : AuthClient) (inst : ZkBNB B)
    (owner : Address) (token : Address) (amount : BigInt)
    (gasPrice : BigInt) (gasLimit : Nat) : Traced B (String × Option Error) :=
  match ConstructTransactOpts b cli authCli gasPrice gasLimit with
  | (.error err, t) => (("", some err), t)
  | (.ok transactOpts, t) =>
    match inst.WithdrawPendingBalance transactOpts owner token amount with
    | (.error err, u) => (("", some err), t ++ u)
    | (.ok tx, u) => ((B.hashString (B.txHash tx), none), t ++ u)

/-- The dispatcher `WithdrawPendingNFTBalance`. -/
def WithdrawPendingNFTBalance (b : OptsBuilder B) (cli : B.ProviderClient) (authCli : AuthClient) (inst : ZkBNB B)
    (nftIndex : BigInt)
    (gasPrice : BigInt) (gasLimit : Nat) : Traced B (String × Option Error) :=
  match ConstructTransactOpts b cli authCli gasPrice gasLimit with
  | (.error err, t) => (("", some err), t)
  | (.ok transactOpts, t) =>
    match inst.WithdrawPendingNFTBalance transactOpts nftIndex with
    | (.error err, u) => (("", some err), t ++ u)
    | (.ok tx, u) => ((B.hashString (B.txHash tx), none), t ++ u)

/-- The dispatcher `CancelOutstandingDepositsForExodusMode`. -/
def CancelOutstandingDepositsForExodusMode (b : OptsBuilder B) (cli : B.ProviderClient) (authCli : AuthClient) (inst : ZkBNB B)
    (priorityRequestId : Nat) (depositsPubData : List (List Nat))
    (gasPrice : BigInt) (gasLimit : Nat) : Traced B (String × Option Error) :=
  match ConstructTransactOpts b cli authCli gasPrice gasLimit with
  | (.error err, t) => (("", some err), t)
  | (.ok transactOpts, t) =>
    match inst.CancelOutstandingDepositsForDesertMode transactOpts priorityRequestId depositsPubData with
    | (.error err, u) => (("", some err), t ++ u)
    | (.ok tx, u) => ((B.hashString (B.txHash tx), none), t ++ u)

/-- The dispatcher `ActivateDesertMode`. -/
def ActivateDesertMode (b : OptsBuilder B) (cli : B.ProviderClient) (authCli : AuthClient) (inst : ZkBNB B)
    (gasPrice : BigInt) (gasLimit : Nat) : Traced B (String × Option Error) :=
  match ConstructTransactOpts b cli authCli gasPrice gasLimit with
  | (.error err, t) => (("", some err), t)
  | (.ok transactOpts, t) =>
    match inst.ActivateDesertMode transactOpts with
    | (.error err, u) => (("", some err), t ++ u)
    | (.ok tx, u) => ((B.hashString (B.txHash tx), none), t ++ u)

/-! ## The catalogue

One constructor per dispatcher, carrying that dispatcher's arguments (the
contract instance apart) in the order of its signature. -/

/-- A call of one of the fourteen dispatchers. -/
inductive Request (B : Bindings) where
  | CommitBlocks (cli : B.ProviderClient) (authCli : AuthClient)
      (lastBlock : B.StorageStoredBlockInfo) (commitBlocksInfo : List B.ZkBNBCommitBlockInfo)
      (gasPrice : BigInt) (gasLimit : Nat)
  | CommitBlocksWithNonce (authCli : AuthClient)
      (lastBlock : B.StorageStoredBlockInfo) (commitBlocksInfo : List B.ZkBNBCommitBlockInfo)
      (gasPrice : BigInt) (gasLimit : Nat) (nonce : Nat)
  | CommitBlocksWithNonceAndKms (ctx : B.Context) (kmsSvc : B.KmsClient)
      (keyId : String) (chainID : BigInt) (address : Address)
      (lastBlock : B.StorageStoredBlockInfo) (commitBlocksInfo : List B.ZkBNBCommitBlockInfo)
      (gasPrice : BigInt) (gasLimit : Nat) (nonce : Nat)
  | VerifyAndExecuteBlocks (cli : B.ProviderClient) (authCli : AuthClient)
      (verifyAndExecuteBlocksInfo : List B.ZkBNBVerifyAndExecuteBlockInfo) (proofs : List BigInt)
      (gasPrice : BigInt) (gasLimit : Nat)
  | VerifyAndExecuteBlocksWithNonce (authCli : AuthClient)
      (verifyAndExecuteBlocksInfo : List B.ZkBNBVerifyAndExecuteBlockInfo) (proofs : List BigInt)
      (gasPrice : BigInt) (gasLimit : Nat) (nonce : Nat)
  | VerifyAndExecuteBlocksWithNonceAndKms (ctx : B.Context) (kmsSvc : B.KmsClient)
      (keyId : String) (chainID : BigInt) (address : Address)
      (verifyAndExecuteBlocksInfo : List B.ZkBNBVerifyAndExecuteBlockInfo) (proofs : List BigInt)
      (gasPrice : BigInt) (gasLimit : Nat) (nonce : Nat)
  | RevertBlocks (cli : B.ProviderClient) (authCli : AuthClient)
      (revertBlocks : List B.StorageStoredBlockInfo)
      (gasPrice : BigInt) (gasLimit : Nat)
  | RevertBlocksWithKms (cli : B.ProviderClient) (ctx : B.Context)
      (kmsSvc : B.KmsClient) (keyId : String) (chainID : BigInt) (address : Address)
      (revertBlocks : List B.StorageStoredBlockInfo)
      (gasPrice : BigInt) (gasLimit : Nat)
  | PerformDesert (cli : B.ProviderClient) (authCli : AuthClient)
      (storedBlockInfo : B.StorageStoredBlockInfo) (nftRoot : BigInt)
      (assetExitData : B.DesertVerifierAssetExitData)
      (accountExitData : B.DesertVerifierAccountExitData)
      (assetMerkleProof : FixedArray BigInt 16) (accountMerkleProof : FixedArray BigInt 32)
      (gasPrice : BigInt) (gasLimit : Nat)
  | PerformDesertNft (cli : B.ProviderClient) (authCli : AuthClient)
      (storedBlockInfo : B.StorageStoredBlockInfo) (assetRoot : BigInt)
      (accountExitData : B.DesertVerifierAccountExitData)
      (exitNfts : List B.DesertVerifierNftExitData)
      (accountMerkleProof : FixedArray BigInt 32)
      (nftMerkleProofs : List (FixedArray BigInt 40))
      (gasPrice : BigInt) (gasLimit : Nat)
  | WithdrawPendingBalance (cli : B.ProviderClient) (authCli : AuthClient)
      (owner : Address) (token : Address) (amount : BigInt)
      (gasPrice : BigInt) (gasLimit : Nat)
  | WithdrawPendingNFTBalance (cli : B.ProviderClient) (authCli : AuthClient)
      (nftIndex : BigInt)
      (gasPrice : BigInt) (gasLimit : Nat)
  | CancelOutstandingDepositsForExodusMode (cli : B.ProviderClient) (authCli : AuthClient)
      (priorityRequestId : Nat) (depositsPubData : List (List Nat))
      (gasPrice : BigInt) (gasLimit : Nat)
  | ActivateDesertMode (cli : B.ProviderClient) (authCli : AuthClient)
      (gasPrice : BigInt) (gasLimit : Nat)

/-- Run the dispatcher a request names. -/
def dispatch (b : OptsBuilder B) (inst : ZkBNB B) : Request B → Traced B (String × Option Error)
  | .CommitBlocks cli authCli lastBlock commitBlocksInfo gasPrice gasLimit =>
    CommitBlocks b cli authCli inst lastBlock commitBlocksInfo gasPrice gasLimit
  | .CommitBlocksWithNonce authCli lastBlock commitBlocksInfo gasPrice gasLimit nonce =>
    CommitBlocksWithNonce b authCli inst lastBlock commitBlocksInfo gasPrice gasLimit nonce
  | .CommitBlocksWithNonceAndKms ctx kmsSvc keyId chainID address lastBlock commitBlocksInfo gasPrice gasLimit nonce =>
    CommitBlocksWithNonceAndKms b ctx kmsSvc keyId chainID address inst lastBlock commitBlocksInfo gasPrice gasLimit nonce
  | .VerifyAndExecuteBlocks cli authCli verifyAndExecuteBlocksInfo proofs gasPrice gasLimit =>
    VerifyAndExecuteBlocks b cli authCli inst verifyAndExecuteBlocksInfo proofs gasPrice gasLimit
  | .VerifyAndExecuteBlocksWithNonce authCli verifyAndExecuteBlocksInfo proofs gasPrice gasLimit nonce =>
    VerifyAndExecuteBlocksWithNonce b authCli inst verifyAndExecuteBlocksInfo proofs gasPrice gasLimit nonce
  | .VerifyAndExecuteBlocksWithNonceAndKms ctx kmsSvc keyId chainID address verifyAndExecuteBlocksInfo proofs gasPrice gasLimit nonce =>
    VerifyAndExecuteBlocksWithNonceAndKms b ctx kmsSvc keyId chainID address inst verifyAndExecuteBlocksInfo proofs gasPrice gasLimit nonce
  | .RevertBlocks cli authCli revertBlocks gasPrice gasLimit =>
    RevertBlocks b cli authCli inst revertBlocks gasPrice gasLimit
  | .RevertBlocksWithKms cli ctx kmsSvc keyId chainID address revertBlocks gasPrice gasLimit =>
    RevertBlocksWithKms b cli ctx kmsSvc keyId chainID address inst revertBlocks gasPrice gasLimit
  | .PerformDesert cli authCli storedBlockInfo nftRoot assetExitData accountExitData assetMerkleProof accountMerkleProof gasPrice gasLimit =>
    PerformDesert b cli authCli inst storedBlockInfo nftRoot assetExitData accountExitData assetMerkleProof accountMerkleProof gasPrice gasLimit
  | .PerformDesertNft cli authCli storedBlockInfo assetRoot accountExitData exitNfts accountMerkleProof nftMerkleProofs gasPrice gasLimit =>
    PerformDesertNft b cli authCli inst storedBlockInfo assetRoot accountExitData exitNfts accountMerkleProof nftMerkleProofs gasPrice gasLimit
  | .WithdrawPendingBalance cli authCli owner token amount gasPrice gasLimit =>
    WithdrawPendingBalance b cli authCli inst owner token amount gasPrice gasLimit
  | .WithdrawPendingNFTBalance cli authCli nftIndex gasPrice gasLimit =>
    WithdrawPendingNFTBalance b cli authCli inst nftIndex gasPrice gasLimit
  | .CancelOutstandingDepositsForExodusMode cli authCli priorityRequestId depositsPubData gasPrice gasLimit =>
    CancelOutstandingDepositsForExodusMode b cli authCli inst priorityRequestId depositsPubData gasPrice gasLimit
  | .ActivateDesertMode cli authCli gasPrice gasLimit =>
    ActivateDesertMode b cli authCli inst gasPrice gasLimit

/-! ## Reading a trace -/

/-- The builder calls of a trace, in order. -/
def builds : List (Event B) → List (BuilderCall B)
  | [] => []
  | .build c :: t => c :: builds t
  | .invoke _ :: t => builds t

/-- The contract calls of a trace, in order. -/
def invokes : List (Event B) → List (ContractCall B)
  | [] => []
  | .build _ :: t => invokes t
  | .invoke c :: t => c :: invokes t

/-- The nonce a builder call received from its caller, if its signature has one. -/
def BuilderCall.nonce? : BuilderCall B → Option Nat
  | .ConstructTransactOpts _ _ _ _ => none
  | .ConstructTransactOptsWithNonce _ _ _ nonce => some nonce
  | .ConstructTransactOptsWithNonceAndKms _ _ _ _ _ _ _ nonce => some nonce
  | .ConstructTransactOptsWithKms _ _ _ _ _ _ _ _ => none

/-- The transaction options a contract call received. -/
def ContractCall.opts : ContractCall B → B.TransactOpts
  | .CommitBlocks o _ _ => o
  | .VerifyAndExecuteBlocks o _ _ => o
  | .RevertBlocks o _ => o
  | .PerformDesert o _ _ _ _ _ _ => o
  | .PerformDesertNft o _ _ _ _ _ _ => o
  | .WithdrawPendingBalance o _ _ _ => o
  | .WithdrawPendingNFTBalance o _ => o
  | .CancelOutstandingDepositsForDesertMode o _ _ => o
  | .ActivateDesertMode o => o

/-! ## Names of the catalogue -/

/-- The nine rollup operations of the specification. -/
inductive Operation where
  | CommitBlocks | VerifyAndExecuteBlocks | RevertBlocks | PerformDesert | PerformDesertNft
  | WithdrawPendingBalance | WithdrawPendingNFTBalance | CancelOutstandingDeposits
  | ActivateDesertMode
deriving DecidableEq, Repr, Fintype

/-- The nine methods of the contract binding that the dispatchers call. -/
inductive Method where
  | CommitBlocks | VerifyAndExecuteBlocks | RevertBlocks | PerformDesert | PerformDesertNft
  | WithdrawPendingBalance | WithdrawPendingNFTBalance | CancelOutstandingDepositsForDesertMode
  | ActivateDesertMode
deriving DecidableEq, Repr, Fintype

/-- The fourteen dispatchers of `core/zkbnb.go`, by name. -/
inductive Dispatcher where
  | CommitBlocks | CommitBlocksWithNonce | CommitBlocksWithNonceAndKms
  | VerifyAndExecuteBlocks | VerifyAndExecuteBlocksWithNonce
  | VerifyAndExecuteBlocksWithNonceAndKms
  | RevertBlocks | RevertBlocksWithKms
  | PerformDesert | PerformDesertNft | WithdrawPendingBalance | WithdrawPendingNFTBalance
  | CancelOutstandingDepositsForExodusMode | ActivateDesertMode
deriving DecidableEq, Repr, Fintype

/-- The method a contract call went to. -/
def ContractCall.method : ContractCall B → Method
  | .CommitBlocks _ _ _ => .CommitBlocks
  | .VerifyAndExecuteBlocks _ _ _ => .VerifyAndExecuteBlocks
  | .RevertBlocks _ _ => .RevertBlocks
  | .PerformDesert _ _ _ _ _ _ _ => .PerformDesert
  | .PerformDesertNft _ _ _ _ _ _ _ => .PerformDesertNft
  | .WithdrawPendingBalance _ _ _ _ => .WithdrawPendingBalance
  | .WithdrawPendingNFTBalance _ _ => .WithdrawPendingNFTBalance
  | .CancelOutstandingDepositsForDesertMode _ _ _ => .CancelOutstandingDepositsForDesertMode
  | .ActivateDesertMode _ => .ActivateDesertMode

/-- The dispatcher a request names. -/
def Request.dispatcher : Request B → Dispatcher
  | .CommitBlocks .. => .CommitBlocks
  | .CommitBlocksWithNonce .. => .CommitBlocksWithNonce
  | .CommitBlocksWithNonceAndKms .. => .CommitBlocksWithNonceAndKms
  | .VerifyAndExecuteBlocks .. => .VerifyAndExecuteBlocks
  | .VerifyAndExecuteBlocksWithNonce .. => .VerifyAndExecuteBlocksWithNonce
  | .VerifyAndExecuteBlocksWithNonceAndKms .. => .VerifyAndExecuteBlocksWithNonceAndKms
  | .RevertBlocks .. => .RevertBlocks
  | .RevertBlocksWithKms .. => .RevertBlocksWithKms
  | .PerformDesert .. => .PerformDesert
  | .PerformDesertNft .. => .PerformDesertNft
  | .WithdrawPendingBalance .. => .WithdrawPendingBalance
  | .WithdrawPendingNFTBalance .. => .WithdrawPendingNFTBalance
  | .CancelOutstandingDepositsForExodusMode .. => .CancelOutstandingDepositsForExodusMode
  | .ActivateDesertMode .. => .ActivateDesertMode

/-- The rollup operation a dispatcher serves, read off its name and doc comment. -/
def Dispatcher.operation : Dispatcher → Operation
  | .CommitBlocks | .CommitBlocksWithNonce | .CommitBlocksWithNonceAndKms => .CommitBlocks
  | .VerifyAndExecuteBlocks | .VerifyAndExecuteBlocksWithNonce
  | .VerifyAndExecuteBlocksWithNonceAndKms => .VerifyAndExecuteBlocks
  | .RevertBlocks | .RevertBlocksWithKms => .RevertBlocks
  | .PerformDesert => .PerformDesert
  | .PerformDesertNft => .PerformDesertNft
  | .WithdrawPendingBalance => .WithdrawPendingBalance
  | .WithdrawPendingNFTBalance => .WithdrawPendingNFTBalance
  | .CancelOutstandingDepositsForExodusMode => .CancelOutstandingDeposits
  | .ActivateDesertMode => .ActivateDesertMode

/-- Whether a dispatcher's signature has a `nonce uint64` parameter. -/
def Dispatcher.takesNonce : Dispatcher → Bool
  | .CommitBlocksWithNonce | .CommitBlocksWithNonceAndKms
  | .VerifyAndExecuteBlocksWithNonce | .VerifyAndExecuteBlocksWithNonceAndKms => true
  | _ => false

/-- The contract entry point the specification assigns to each operation. -/
def entryPoint : Operation → Method
  | .CommitBlocks => .CommitBlocks
  | .VerifyAndExecuteBlocks => .VerifyAndExecuteBlocks
  | .RevertBlocks => .RevertBlocks
  | .PerformDesert => .PerformDesert
  | .PerformDesertNft => .PerformDesertNft
  | .WithdrawPendingBalance => .WithdrawPendingBalance
  | .WithdrawPendingNFTBalance => .WithdrawPendingNFTBalance
  | .CancelOutstandingDeposits => .CancelOutstandingDepositsForDesertMode
  | .ActivateDesertMode => .ActivateDesertMode

/-- The builder call a request is expected to make: the builder of the
request's signing path, with the caller's arguments verbatim. -/
def Request.builderCall : Request B → BuilderCall B
  | .CommitBlocks cli authCli _ _ gasPrice gasLimit
  | .VerifyAndExecuteBlocks cli authCli _ _ gasPrice gasLimit
  | .RevertBlocks cli authCli _ gasPrice gasLimit
  | .PerformDesert cli authCli _ _ _ _ _ _ gasPrice gasLimit
  | .PerformDesertNft cli authCli _ _ _ _ _ _ gasPrice gasLimit
  | .WithdrawPendingBalance cli authCli _ _ _ gasPrice gasLimit
  | .WithdrawPendingNFTBalance cli authCli _ gasPrice gasLimit
  | .CancelOutstandingDepositsForExodusMode cli authCli _ _ gasPrice gasLimit
  | .ActivateDesertMode cli authCli gasPrice gasLimit =>
    .ConstructTransactOpts cli authCli gasPrice gasLimit
  | .CommitBlocksWithNonce authCli _ _ gasPrice gasLimit nonce
  | .VerifyAndExecuteBlocksWithNonce authCli _ _ gasPrice gasLimit nonce =>
    .ConstructTransactOptsWithNonce authCli gasPrice gasLimit nonce
  | .CommitBlocksWithNonceAndKms ctx kmsSvc keyId chainID address _ _ gasPrice gasLimit nonce
  | .VerifyAndExecuteBlocksWithNonceAndKms ctx kmsSvc keyId chainID address _ _
      gasPrice gasLimit nonce =>
    .ConstructTransactOptsWithNonceAndKms ctx kmsSvc keyId chainID address
      gasPrice gasLimit nonce
  | .RevertBlocksWithKms cli ctx kmsSvc keyId chainID address _ gasPrice gasLimit =>
    .ConstructTransactOptsWithKms cli ctx kmsSvc keyId chainID address gasPrice gasLimit

/-- The contract call a request is expected to make once its options are
built: the entry point of its operation, with the caller's payload arguments
in the caller's order. -/
def Request.contractCall (opts : B.TransactOpts) : Request B → ContractCall B
  | .CommitBlocks _ _ lastBlock commitBlocksInfo _ _
  | .CommitBlocksWithNonce _ lastBlock commitBlocksInfo _ _ _
  | .CommitBlocksWithNonceAndKms _ _ _ _ _ lastBlock commitBlocksInfo _ _ _ =>
    .CommitBlocks opts lastBlock commitBlocksInfo
  | .VerifyAndExecuteBlocks _ _ verifyAndExecuteBlocksInfo proofs _ _
  | .VerifyAndExecuteBlocksWithNonce _ verifyAndExecuteBlocksInfo proofs _ _ _
  | .VerifyAndExecuteBlocksWithNonceAndKms _ _ _ _ _ verifyAndExecuteBlocksInfo proofs _ _ _ =>
    .VerifyAndExecuteBlocks opts verifyAndExecuteBlocksInfo proofs
  | .RevertBlocks _ _ revertBlocks _ _
  | .RevertBlocksWithKms _ _ _ _ _ _ revertBlocks _ _ =>
    .RevertBlocks opts revertBlocks
  | .PerformDesert _ _ storedBlockInfo nftRoot assetExitData accountExitData
      assetMerkleProof accountMerkleProof _ _ =>
    .PerformDesert opts storedBlockInfo nftRoot assetExitData accountExitData
      assetMerkleProof accountMerkleProof
  | .PerformDesertNft _ _ storedBlockInfo assetRoot accountExitData exitNfts
      accountMerkleProof nftMerkleProofs _ _ =>
    .PerformDesertNft opts storedBlockInfo assetRoot accountExitData exitNfts
      accountMerkleProof nftMerkleProofs
  | .WithdrawPendingBalance _ _ owner token amount _ _ =>
    .WithdrawPendingBalance opts owner token amount
  | .WithdrawPendingNFTBalance _ _ nftIndex _ _ =>
    .WithdrawPendingNFTBalance opts nftIndex
  | .CancelOutstandingDepositsForExodusMode _ _ priorityRequestId depositsPubData _ _ =>
    .CancelOutstandingDepositsForDesertMode opts priorityRequestId depositsPubData
  | .ActivateDesertMode _ _ _ _ =>
    .ActivateDesertMode opts

/-! ## Parts modelled from the specification

The options builders and the remote signer are not in the two source files.
Where a property needs what they compute, they are modelled here from
sections 3, 4.2 and 4.3 of the specification. -/

/-- Modelled from the spec: the backend of a `SigningIdentity` (section 3),
either a local private key or a remote KMS key identifier; the type is not
declared in the source files. -/
inductive Backend where
  | Local (privateKey : PrivateKey)
  | Remote (kmsKeyId : String)
deriving DecidableEq, Repr

/-- Modelled from the spec: `SigningIdentity` (section 3), an address and
exactly one backend; the type is not declared in the source files. -/
structure SigningIdentity where
  address : Address
  backend : Backend
deriving DecidableEq, Repr

/-- Modelled from the spec: `TransactionOptions` (section 3); stands for the
transaction options type, which the source files name and do not declare. -/
structure TransactionOptions where
  signingIdentity : SigningIdentity
  chainId : BigInt
  nonce : Option Nat
  gasPrice : BigInt
  gasLimit : Nat
deriving DecidableEq, Repr

/-- Modelled from the spec: the options builder `build` (section 4.3), missing
from the source files. An explicit nonce is used verbatim; an unset nonce is
fetched from the chain client, whose failure is reported as
`OptionsConstructionFailed` around the cause; the gas price passes through,
`none` meaning that the chain client estimates it. -/
def build (getPendingNonce : Address → Except Error Nat) (identity : SigningIdentity)
    (chainId : BigInt) (gasPrice : BigInt) (gasLimit : Nat) (nonce : Option Nat) :
    Except Error TransactionOptions :=
  match nonce with
  | some n =>
    .ok { signingIdentity := identity, chainId := chainId, nonce := some n,
          gasPrice := gasPrice, gasLimit := gasLimit }
  | none =>
    match getPendingNonce identity.address with
    | .error e => .error (.wrapped "OptionsConstructionFailed" e)
    | .ok n =>
      .ok { signingIdentity := identity, chainId := chainId, nonce := some n,
            gasPrice := gasPrice, gasLimit := gasLimit }

/-- The same declarations with `TransactionOptions` as the options type. -/
abbrev Bindings.withTransactionOptions (B : Bindings) : Bindings :=
  { B with TransactOpts := TransactionOptions }

/-- Modelled from the spec: the four options builders of package `core`,
missing from the source files, as calls of `build`: the local path takes the
identity and the chain id from the `AuthClient`, the KMS path from its key
identifier, address and chain id arguments. -/
def specOptsBuilder (B : Bindings) (getPendingNonce : Address → Except Error Nat) :
    OptsBuilder B.withTransactionOptions where
  result
    | .ConstructTransactOpts _ authCli gasPrice gasLimit =>
      build getPendingNonce ⟨authCli.Address, .Local authCli.PrivateKey⟩ authCli.ChainId
        gasPrice gasLimit none
    | .ConstructTransactOptsWithNonce authCli gasPrice gasLimit nonce =>
      build getPendingNonce ⟨authCli.Address, .Local authCli.PrivateKey⟩ authCli.ChainId
        gasPrice gasLimit (some nonce)
    | .ConstructTransactOptsWithNonceAndKms _ _ keyId chainID address gasPrice gasLimit nonce =>
      build getPendingNonce ⟨address, .Remote keyId⟩ chainID gasPrice gasLimit (some nonce)
    | .ConstructTransactOptsWithKms _ _ _ keyId chainID address gasPrice gasLimit =>
      build getPendingNonce ⟨address, .Remote keyId⟩ chainID gasPrice gasLimit none

/-- Modelled from the spec: `SignatureTriple` (section 3); the type is not
declared in the source files. -/
structure SignatureTriple where
  r : Int
  s : Int
  v : Nat
deriving DecidableEq, Repr

/-- Modelled from the spec: half the curve order, the bound of the canonical
form (section 4.2, step 2); the constant is not in the source files. -/
def halfOrder (curveOrder : Int) : Int := curveOrder / 2

/-- Modelled from the spec: step 2 of the remote signing backend (section 4.2),
missing from the source files: an `s` above half the curve order is replaced by
`curveOrder - s`. -/
def normalizeS (curveOrder s : Int) : Int :=
  if s > halfOrder curveOrder then curveOrder - s else s

/-- Modelled from the spec: step 3 of the remote signing backend (section 4.2),
missing from the source files: the first candidate in `0, 1` whose recovered
address is the expected one. -/
def recoveryIdSearch (recover : Nat → Int → Int → Nat → Option Address)
    (signingHash : Nat) (r s : Int) (expected : Address) : Option Nat :=
  [0, 1].find? fun v => recover signingHash r s v == some expected

/-- Modelled from the spec: the remote signing backend after the DER pair
`(r, s)` has been parsed (section 4.2, steps 2 to 4), missing from the source
files: normalise `s`, search the recovery id with the normalised `s`, fail
with `SigningFailed` on a mismatch, encode `v`. -/
def remoteSign (curveOrder : Int) (recover : Nat → Int → Int → Nat → Option Address)
    (encodeV : Nat → Nat) (signingHash : Nat) (expected : Address) (rs : Int × Int) :
    Except Error SignatureTriple :=
  let s := normalizeS curveOrder rs.2
  match recoveryIdSearch recover signingHash rs.1 s expected with
  | none => .error (.wrapped "SigningFailed" (.named "recovery mismatch"))
  | some v => .ok { r := rs.1, s := s, v := encodeV v }

/-! ## Sample collaborators -/

/-- Sample declarations: unit handles, numbers for the options and the payload
structs, the hash of a transaction kept as its text. -/
abbrev sampleBindings : Bindings where
  ProviderClient := Unit
  Context := Unit
  KmsClient := Unit
  TransactOpts := Nat
  Transaction := String
  Hash := String
  StorageStoredBlockInfo := Nat
  ZkBNBCommitBlockInfo := Nat
  ZkBNBVerifyAndExecuteBlockInfo := Nat
  DesertVerifierAssetExitData := Nat
  DesertVerifierAccountExitData := Nat
  DesertVerifierNftExitData := Nat
  txHash := fun tx => tx
  hashString := fun h => "0x" ++ h

/-- A sample identity with chain id 56. -/
def sampleAuthClient : AuthClient where
  PrivateKey := { PublicKey := { X := some 1, Y := some 1 }, D := some 1 }
  PublicKey := { X := some 1, Y := some 1 }
  Address := 1
  ChainId := some 56

/-- A builder whose every call fails. -/
def failingBuilder : OptsBuilder sampleBindings where
  result := fun _ => .error (.named "nonce lookup failed")

/-- A contract whose every method accepts the call. -/
def sampleContract : ZkBNB sampleBindings where
  result := fun _ => .ok "ab12"

/-- A contract whose every method rejects the call. -/
def rejectingContract : ZkBNB sampleBindings where
  result := fun _ => .error (.named "nonce too low")

/-- A builder that returns the same options, numbered 77, for every call. -/
def uniformBuilder : OptsBuilder sampleBindings where
  result := fun _ => .ok 77

/-- A contract, over the options type of the specification, whose every method
accepts the call. -/
def specContract : ZkBNB sampleBindings.withTransactionOptions where
  result := fun _ => .ok "ab12"

/-- A sample public-key recovery: candidate 1 recovers address 9 from any
signature, candidate 0 recovers nothing. -/
def sampleRecover : Nat → Int → Int → Nat → Option Address :=
  fun _ _ _ v => if v = 1 then some 9 else none

/-! # Properties -/

/-! ## Shared lemmas -/

/-- Every dispatcher has one shape: one builder call, then, if it succeeded,
one contract call with the built options. -/
theorem dispatch_eq (b : OptsBuilder B) (inst : ZkBNB B) (r : Request B) :
    dispatch b inst r =
      match b.result r.builderCall with
      | .error err => (("", some err), [.build r.builderCall])
      | .ok opts =>
        match inst.result (r.contractCall opts) with
        | .error err =>
          (("", some err), [.build r.builderCall, .invoke (r.contractCall opts)])
        | .ok tx =>
          ((B.hashString (B.txHash tx), none),
            [.build r.builderCall, .invoke (r.contractCall opts)]) := by
  cases r <;>
    simp only [dispatch, Request.builderCall, Request.contractCall,
      EthRpc.CommitBlocks, EthRpc.CommitBlocksWithNonce, EthRpc.CommitBlocksWithNonceAndKms,
      EthRpc.VerifyAndExecuteBlocks, EthRpc.VerifyAndExecuteBlocksWithNonce,
      EthRpc.VerifyAndExecuteBlocksWithNonceAndKms, EthRpc.RevertBlocks,
      EthRpc.RevertBlocksWithKms, EthRpc.PerformDesert, EthRpc.PerformDesertNft,
      EthRpc.WithdrawPendingBalance, EthRpc.WithdrawPendingNFTBalance,
      EthRpc.CancelOutstandingDepositsForExodusMode, EthRpc.ActivateDesertMode,
      ConstructTransactOpts, ConstructTransactOptsWithNonce,
      ConstructTransactOptsWithNonceAndKms, ConstructTransactOptsWithKms,
      ZkBNB.CommitBlocks, ZkBNB.VerifyAndExecuteBlocks, ZkBNB.RevertBlocks,
      ZkBNB.PerformDesert, ZkBNB.PerformDesertNft, ZkBNB.WithdrawPendingBalance,
      ZkBNB.WithdrawPendingNFTBalance, ZkBNB.CancelOutstandingDepositsForDesertMode,
      ZkBNB.ActivateDesertMode, OptsBuilder.call, ZkBNB.call] <;>
    (split <;> rename_i h <;> simp only [Prod.mk.injEq] at h <;> obtain ⟨h1, rfl⟩ := h <;>
      simp only [h1] <;> split <;> rename_i h <;> simp only [Prod.mk.injEq] at h <;>
      obtain ⟨h2, rfl⟩ := h <;> simp only [h2] <;> rfl)

/-- The trace of a dispatcher whose builder call fails. -/
theorem dispatch_of_build_error (b : OptsBuilder B) (inst : ZkBNB B) (r : Request B)
    (e : Error) (hb : b.result r.builderCall = .error e) :
    dispatch b inst r = (("", some e), [.build r.builderCall]) := by
  rw [dispatch_eq, hb]

/-- The trace of a dispatcher whose builder call succeeds and whose contract call fails. -/
theorem dispatch_of_call_error (b : OptsBuilder B) (inst : ZkBNB B) (r : Request B)
    (opts : B.TransactOpts) (e : Error) (hb : b.result r.builderCall = .ok opts)
    (hc : inst.result (r.contractCall opts) = .error e) :
    dispatch b inst r =
      (("", some e), [.build r.builderCall, .invoke (r.contractCall opts)]) := by
  rw [dispatch_eq, hb]; simp only [hc]

/-- The trace of a dispatcher whose two calls succeed. -/
theorem dispatch_of_ok (b : OptsBuilder B) (inst : ZkBNB B) (r : Request B)
    (opts : B.TransactOpts) (tx : B.Transaction) (hb : b.result r.builderCall = .ok opts)
    (hc : inst.result (r.contractCall opts) = .ok tx) :
    dispatch b inst r =
      ((B.hashString (B.txHash tx), none),
        [.build r.builderCall, .invoke (r.contractCall opts)]) := by
  rw [dispatch_eq, hb]; simp only [hc]

/-- The collaborator calls of a dispatcher: the builder call, then the
contract call if the builder succeeded. -/
theorem dispatch_trace (b : OptsBuilder B) (inst : ZkBNB B) (r : Request B) :
    (dispatch b inst r).2 =
      match b.result r.builderCall with
      | .error _ => [.build r.builderCall]
      | .ok opts => [.build r.builderCall, .invoke (r.contractCall opts)] := by
  rw [dispatch_eq]
  cases hb : b.result r.builderCall with
  | error e => rfl
  | ok opts =>
    simp only
    cases hc : inst.result (r.contractCall opts) <;> rfl

/-! ## Key material -/

/-- C1, counterexample: the sixty-four zero digits pass validation, the
decoder rejects them, and `NewAuthClient` returns the decoder's error, which is
not `ErrInvalidPrivateKey`. -/
theorem NewAuthClient_decode_error_counterexample :
    sampleKeyUtils.IsValidPrivateKey zeroKey = true ∧
    NewAuthClient sampleKeyUtils zeroKey (some 56) =
      (none, some (.named "invalid private key")) ∧
    Error.named "invalid private key" ≠ ErrInvalidPrivateKey := by
  decide

/-- C1, amended: `NewAuthClient` fails exactly when validation rejects the key
or decoding returns an error; a failure returns no client; the error is
`ErrInvalidPrivateKey` when validation rejects the key and the decoder's own
error, unchanged, when validation accepts the key and decoding fails. -/
theorem NewAuthClient_failure (u : KeyUtils) (priKey : String) (chainId : BigInt) :
    ((NewAuthClient u priKey chainId).2 ≠ none ↔
      (u.IsValidPrivateKey priKey = false ∨ ∃ e, u.DecodePrivateKey priKey = .error e)) ∧
    ((NewAuthClient u priKey chainId).2 ≠ none → (NewAuthClient u priKey chainId).1 = none) ∧
    (u.IsValidPrivateKey priKey = false →
      NewAuthClient u priKey chainId = (none, some ErrInvalidPrivateKey)) ∧
    (∀ e, u.IsValidPrivateKey priKey = true → u.DecodePrivateKey priKey = .error e →
      NewAuthClient u priKey chainId = (none, some e)) := by
  unfold NewAuthClient
  cases hv : u.IsValidPrivateKey priKey <;> cases hd : u.DecodePrivateKey priKey <;> simp

/-- C1, witness: a key that validation rejects, and the zero key, which only
the decoder rejects. -/
theorem NewAuthClient_failure_witness :
    NewAuthClient sampleKeyUtils "xyz" (some 56) = (none, some ErrInvalidPrivateKey) ∧
    NewAuthClient sampleKeyUtils zeroKey (some 56) =
      (none, some (.named "invalid private key")) :=
  ⟨(NewAuthClient_failure sampleKeyUtils "xyz" (some 56)).2.2.1 (by decide),
   (NewAuthClient_failure sampleKeyUtils zeroKey (some 56)).2.2.2 _ (by decide) (by rfl)⟩

/-- C2: when `NewAuthClient` succeeds, the key string decodes to a private
key, and the client holds that key, its public key, the address derived from
that public key and the chain id passed in; the result is a function of the
inputs, so two calls agree on address, public key and chain id. -/
theorem NewAuthClient_identity (u : KeyUtils) (priKey : String) (chainId : BigInt)
    (h : (NewAuthClient u priKey chainId).2 = none) :
    (∃ privateKey cli, u.DecodePrivateKey priKey = .ok privateKey ∧
      (NewAuthClient u priKey chainId).1 = some cli ∧
      cli.PrivateKey = privateKey ∧
      cli.PublicKey = privateKey.PublicKey ∧
      cli.Address = u.PubkeyToAddress cli.PublicKey ∧
      cli.ChainId = chainId) ∧
    (∀ c₁ c₂, (NewAuthClient u priKey chainId).1 = some c₁ →
      (NewAuthClient u priKey chainId).1 = some c₂ →
      c₁.Address = c₂.Address ∧ c₁.PublicKey = c₂.PublicKey ∧ c₁.ChainId = c₂.ChainId) := by
  constructor
  · unfold NewAuthClient at h ⊢
    cases hv : u.IsValidPrivateKey priKey <;> cases hd : u.DecodePrivateKey priKey <;>
      simp [hv, hd] at h ⊢
  · intro c₁ c₂ h₁ h₂
    rw [h₁] at h₂
    cases h₂
    exact ⟨rfl, rfl, rfl⟩

/-- C2, witness: the scalar one with chain id 56. -/
theorem NewAuthClient_identity_witness :
    (NewAuthClient sampleKeyUtils oneKey (some 56)).2 = none ∧
    ∃ privateKey cli, sampleKeyUtils.DecodePrivateKey oneKey = .ok privateKey ∧
      (NewAuthClient sampleKeyUtils oneKey (some 56)).1 = some cli ∧
      cli.PrivateKey = privateKey ∧
      cli.PublicKey = privateKey.PublicKey ∧
      cli.Address = sampleKeyUtils.PubkeyToAddress cli.PublicKey ∧
      cli.ChainId = some 56 :=
  ⟨by decide, (NewAuthClient_identity sampleKeyUtils oneKey (some 56) (by decide)).1⟩

/-! ## Dispatchers -/

/-- C3: for every dispatcher, when options construction succeeds and the
contract method returns a transaction without error, the dispatcher returns a
nil error and the string form of that transaction's hash. -/
theorem dispatch_success (b : OptsBuilder B) (inst : ZkBNB B) (r : Request B)
    (opts : B.TransactOpts) (tx : B.Transaction)
    (hb : b.result r.builderCall = .ok opts)
    (hc : inst.result (r.contractCall opts) = .ok tx) :
    (dispatch b inst r).1 = (B.hashString (B.txHash tx), none) := by
  rw [dispatch_of_ok b inst r opts tx hb hc]

/-- C3, witness: `ActivateDesertMode` over a builder and a
contract that both succeed. -/
theorem dispatch_success_witness :
    (ActivateDesertMode uniformBuilder () sampleAuthClient sampleContract none 21000).1 =
      ("0xab12", none) :=
  dispatch_success uniformBuilder sampleContract
    (.ActivateDesertMode () sampleAuthClient none 21000) _ "ab12" rfl rfl

/-- C4, counterexample: `CommitBlocks` over a builder that fails with an
error `e` returns `e` itself, and over a contract that fails with `e` returns
`e` itself; in neither case is the returned error a wrapper around `e`. -/
theorem dispatch_error_counterexample :
    failingBuilder.result (.ConstructTransactOpts () sampleAuthClient none 21000) =
      .error (.named "nonce lookup failed") ∧
    (CommitBlocks failingBuilder () sampleAuthClient sampleContract 3 [4] none 21000).1 =
      ("", some (.named "nonce lookup failed")) ∧
    (∀ kind, (CommitBlocks failingBuilder () sampleAuthClient sampleContract 3 [4]
        none 21000).1.2 ≠ some (.wrapped kind (.named "nonce lookup failed"))) ∧
    (CommitBlocks uniformBuilder () sampleAuthClient rejectingContract 3 [4] none 21000).1 =
      ("", some (.named "nonce too low")) ∧
    (∀ kind, (CommitBlocks uniformBuilder () sampleAuthClient rejectingContract 3 [4]
        none 21000).1.2 ≠ some (.wrapped kind (.named "nonce too low"))) := by
  refine ⟨rfl, rfl, ?_, rfl, ?_⟩ <;> intro kind h <;> cases h

/-- C4, amended: when options construction or the contract method returns an
error `e`, the dispatcher returns the empty string together with `e` itself,
unchanged; and a dispatcher that returns a nil error had both calls succeed. -/
theorem dispatch_error_passthrough (b : OptsBuilder B) (inst : ZkBNB B) (r : Request B) :
    (∀ e, b.result r.builderCall = .error e → (dispatch b inst r).1 = ("", some e)) ∧
    (∀ opts e, b.result r.builderCall = .ok opts →
      inst.result (r.contractCall opts) = .error e → (dispatch b inst r).1 = ("", some e)) ∧
    ((dispatch b inst r).1.2 = none →
      ∃ opts tx, b.result r.builderCall = .ok opts ∧
        inst.result (r.contractCall opts) = .ok tx) := by
  refine ⟨fun e hb => ?_, fun opts e hb hc => ?_, fun h => ?_⟩
  · rw [dispatch_of_build_error b inst r e hb]
  · rw [dispatch_of_call_error b inst r opts e hb hc]
  · cases hb : b.result r.builderCall with
    | error e => rw [dispatch_of_build_error b inst r e hb] at h; cases h
    | ok opts =>
      cases hc : inst.result (r.contractCall opts) with
      | error e => rw [dispatch_of_call_error b inst r opts e hb hc] at h; cases h
      | ok tx => exact ⟨opts, tx, rfl, hc⟩

/-- C4, witness: `RevertBlocksWithKms` over a failing builder, and over a
rejecting contract. -/
theorem dispatch_error_passthrough_witness :
    (RevertBlocksWithKms failingBuilder () () () "key-1" (some 56) 1 sampleContract [3]
        none 21000).1 = ("", some (.named "nonce lookup failed")) ∧
    (RevertBlocksWithKms uniformBuilder () () () "key-1" (some 56) 1 rejectingContract [3]
        none 21000).1 = ("", some (.named "nonce too low")) :=
  ⟨(dispatch_error_passthrough failingBuilder sampleContract
      (.RevertBlocksWithKms () () () "key-1" (some 56) 1 [3] none 21000)).1 _ rfl,
   (dispatch_error_passthrough uniformBuilder rejectingContract
      (.RevertBlocksWithKms () () () "key-1" (some 56) 1 [3] none 21000)).2.1 _ _ rfl rfl⟩

/-- C5: a dispatcher whose options are built makes exactly one contract call:
the entry point that the specification assigns to the dispatcher's operation,
with the built options and the caller's payload arguments in the caller's
order; and distinct operations have distinct entry points. -/
theorem dispatch_entry_point (b : OptsBuilder B) (inst : ZkBNB B) (r : Request B)
    (opts : B.TransactOpts) (hb : b.result r.builderCall = .ok opts) :
    invokes (dispatch b inst r).2 = [r.contractCall opts] ∧
    (r.contractCall opts).method = entryPoint r.dispatcher.operation ∧
    (r.contractCall opts).opts = opts ∧
    Function.Injective entryPoint := by
  refine ⟨?_, ?_, ?_, ?_⟩
  · rw [dispatch_trace, hb]; rfl
  · cases r <;> rfl
  · cases r <;> rfl
  · intro x y h
    cases x <;> cases y <;> first | rfl | cases h

/-- C5, witness: `CancelOutstandingDepositsForExodusMode` calls
`CancelOutstandingDepositsForDesertMode` with its two payload arguments. -/
theorem dispatch_entry_point_witness :
    invokes (CancelOutstandingDepositsForExodusMode uniformBuilder () sampleAuthClient
        sampleContract 8 [[1, 2], [3]] (some 1000000000) 21000).2 =
      [.CancelOutstandingDepositsForDesertMode 77 8 [[1, 2], [3]]] :=
  (dispatch_entry_point uniformBuilder sampleContract
    (.CancelOutstandingDepositsForExodusMode () sampleAuthClient 8 [[1, 2], [3]]
      (some 1000000000) 21000) _ rfl).1

/-- C6: each explicit-nonce dispatcher calls its options builder once, with
the caller's nonce, gas price and gas limit (and, on the KMS path, chain id and
address) verbatim, and calls the contract method with exactly the options the
builder returned; with the builder modelled from the specification, those
options carry exactly the caller's nonce, gas price, gas limit and chain id. -/
theorem explicit_nonce_verbatim (b : OptsBuilder B) (inst : ZkBNB B)
    (authCli : AuthClient) (ctx : B.Context) (kmsSvc : B.KmsClient) (keyId : String)
    (chainID : BigInt) (address : Address)
    (lastBlock : B.StorageStoredBlockInfo) (commitBlocksInfo : List B.ZkBNBCommitBlockInfo)
    (verifyAndExecuteBlocksInfo : List B.ZkBNBVerifyAndExecuteBlockInfo)
    (proofs : List BigInt) (gasPrice : BigInt) (gasLimit : Nat) (nonce : Nat)
    (inst' : ZkBNB B.withTransactionOptions) (getPendingNonce : Address → Except Error Nat) :
    (builds (CommitBlocksWithNonce b authCli inst lastBlock commitBlocksInfo
        gasPrice gasLimit nonce).2 =
        [.ConstructTransactOptsWithNonce authCli gasPrice gasLimit nonce] ∧
      ∀ opts, b.result (.ConstructTransactOptsWithNonce authCli gasPrice gasLimit nonce) =
          .ok opts →
        invokes (CommitBlocksWithNonce b authCli inst lastBlock commitBlocksInfo
          gasPrice gasLimit nonce).2 = [.CommitBlocks opts lastBlock commitBlocksInfo]) ∧
    (builds (VerifyAndExecuteBlocksWithNonce b authCli inst verifyAndExecuteBlocksInfo proofs
        gasPrice gasLimit nonce).2 =
        [.ConstructTransactOptsWithNonce authCli gasPrice gasLimit nonce] ∧
      ∀ opts, b.result (.ConstructTransactOptsWithNonce authCli gasPrice gasLimit nonce) =
          .ok opts →
        invokes (VerifyAndExecuteBlocksWithNonce b authCli inst verifyAndExecuteBlocksInfo
          proofs gasPrice gasLimit nonce).2 =
          [.VerifyAndExecuteBlocks opts verifyAndExecuteBlocksInfo proofs]) ∧
    (builds (CommitBlocksWithNonceAndKms b ctx kmsSvc keyId chainID address inst lastBlock
        commitBlocksInfo gasPrice gasLimit nonce).2 =
        [.ConstructTransactOptsWithNonceAndKms ctx kmsSvc keyId chainID address
          gasPrice gasLimit nonce] ∧
      ∀ opts, b.result (.ConstructTransactOptsWithNonceAndKms ctx kmsSvc keyId chainID address
          gasPrice gasLimit nonce) = .ok opts →
        invokes (CommitBlocksWithNonceAndKms b ctx kmsSvc keyId chainID address inst lastBlock
          commitBlocksInfo gasPrice gasLimit nonce).2 =
          [.CommitBlocks opts lastBlock commitBlocksInfo]) ∧
    (builds (VerifyAndExecuteBlocksWithNonceAndKms b ctx kmsSvc keyId chainID address inst
        verifyAndExecuteBlocksInfo proofs gasPrice gasLimit nonce).2 =
        [.ConstructTransactOptsWithNonceAndKms ctx kmsSvc keyId chainID address
          gasPrice gasLimit nonce] ∧
      ∀ opts, b.result (.ConstructTransactOptsWithNonceAndKms ctx kmsSvc keyId chainID address
          gasPrice gasLimit nonce) = .ok opts →
        invokes (VerifyAndExecuteBlocksWithNonceAndKms b ctx kmsSvc keyId chainID address inst
          verifyAndExecuteBlocksInfo proofs gasPrice gasLimit nonce).2 =
          [.VerifyAndExecuteBlocks opts verifyAndExecuteBlocksInfo proofs]) ∧
    invokes (CommitBlocksWithNonce (specOptsBuilder B getPendingNonce) authCli inst' lastBlock
        commitBlocksInfo gasPrice gasLimit nonce).2 =
      [.CommitBlocks
        { signingIdentity := ⟨authCli.Address, .Local authCli.PrivateKey⟩,
          chainId := authCli.ChainId, nonce := some nonce, gasPrice := gasPrice,
          gasLimit := gasLimit } lastBlock commitBlocksInfo] ∧
    invokes (CommitBlocksWithNonceAndKms (specOptsBuilder B getPendingNonce) ctx kmsSvc keyId
        chainID address inst' lastBlock commitBlocksInfo gasPrice gasLimit nonce).2 =
      [.CommitBlocks
        { signingIdentity := ⟨address, .Remote keyId⟩,
          chainId := chainID, nonce := some nonce, gasPrice := gasPrice,
          gasLimit := gasLimit } lastBlock commitBlocksInfo] ∧
    invokes (VerifyAndExecuteBlocksWithNonce (specOptsBuilder B getPendingNonce) authCli inst'
        verifyAndExecuteBlocksInfo proofs gasPrice gasLimit nonce).2 =
      [.VerifyAndExecuteBlocks
        { signingIdentity := ⟨authCli.Address, .Local authCli.PrivateKey⟩,
          chainId := authCli.ChainId, nonce := some nonce, gasPrice := gasPrice,
          gasLimit := gasLimit } verifyAndExecuteBlocksInfo proofs] ∧
    invokes (VerifyAndExecuteBlocksWithNonceAndKms (specOptsBuilder B getPendingNonce) ctx
        kmsSvc keyId chainID address inst' verifyAndExecuteBlocksInfo proofs
        gasPrice gasLimit nonce).2 =
      [.VerifyAndExecuteBlocks
        { signingIdentity := ⟨address, .Remote keyId⟩,
          chainId := chainID, nonce := some nonce, gasPrice := gasPrice,
          gasLimit := gasLimit } verifyAndExecuteBlocksInfo proofs] := by
  have key : ∀ (B : Bindings) (b : OptsBuilder B) (inst : ZkBNB B) (r : Request B),
      builds (dispatch b inst r).2 = [r.builderCall] ∧
      ∀ opts, b.result r.builderCall = .ok opts →
        invokes (dispatch b inst r).2 = [r.contractCall opts] := by
    intro B b inst r
    rw [dispatch_trace]
    cases hb : b.result r.builderCall with
    | error e => exact ⟨rfl, fun opts h => by cases h⟩
    | ok o => exact ⟨rfl, fun opts h => by cases h; rfl⟩
  refine ⟨?_, ?_, ?_, ?_, ?_, ?_, ?_, ?_⟩
  · exact key B b inst (.CommitBlocksWithNonce authCli lastBlock commitBlocksInfo
      gasPrice gasLimit nonce)
  · exact key B b inst (.VerifyAndExecuteBlocksWithNonce authCli verifyAndExecuteBlocksInfo
      proofs gasPrice gasLimit nonce)
  · exact key B b inst (.CommitBlocksWithNonceAndKms ctx kmsSvc keyId chainID address
      lastBlock commitBlocksInfo gasPrice gasLimit nonce)
  · exact key B b inst (.VerifyAndExecuteBlocksWithNonceAndKms ctx kmsSvc keyId chainID
      address verifyAndExecuteBlocksInfo proofs gasPrice gasLimit nonce)
  · exact (key B.withTransactionOptions (specOptsBuilder B getPendingNonce) inst'
      (.CommitBlocksWithNonce authCli lastBlock commitBlocksInfo gasPrice gasLimit nonce)).2
      _ rfl
  · exact (key B.withTransactionOptions (specOptsBuilder B getPendingNonce) inst'
      (.CommitBlocksWithNonceAndKms ctx kmsSvc keyId chainID address lastBlock
        commitBlocksInfo gasPrice gasLimit nonce)).2 _ rfl
  · exact (key B.withTransactionOptions (specOptsBuilder B getPendingNonce) inst'
      (.VerifyAndExecuteBlocksWithNonce authCli verifyAndExecuteBlocksInfo proofs
        gasPrice gasLimit nonce)).2 _ rfl
  · exact (key B.withTransactionOptions (specOptsBuilder B getPendingNonce) inst'
      (.VerifyAndExecuteBlocksWithNonceAndKms ctx kmsSvc keyId chainID address
        verifyAndExecuteBlocksInfo proofs gasPrice gasLimit nonce)).2 _ rfl

/-- C6, witness: nonce 5, gas price 1000000000, gas
limit 21000 and chain id 56 reach the contract method on the local path and on
the KMS path. -/
theorem explicit_nonce_verbatim_witness :
    invokes (CommitBlocksWithNonce (specOptsBuilder sampleBindings fun _ => .ok 7)
        sampleAuthClient specContract 3 [4] (some 1000000000) 21000 5).2 =
      [.CommitBlocks
        { signingIdentity := ⟨1, .Local sampleAuthClient.PrivateKey⟩,
          chainId := some 56, nonce := some 5, gasPrice := some 1000000000,
          gasLimit := 21000 } 3 [4]] ∧
    invokes (CommitBlocksWithNonceAndKms (specOptsBuilder sampleBindings fun _ => .ok 7)
        () () "key-1" (some 56) 1 specContract 3 [4] (some 1000000000) 21000 5).2 =
      [.CommitBlocks
        { signingIdentity := ⟨1, .Remote "key-1"⟩,
          chainId := some 56, nonce := some 5, gasPrice := some 1000000000,
          gasLimit := 21000 } 3 [4]] :=
  ⟨(explicit_nonce_verbatim uniformBuilder sampleContract sampleAuthClient () () "key-1"
    (some 56) 1 3 [4] [] [] (some 1000000000) 21000 5 specContract (fun _ => .ok 7)).2.2.2.2.1,
   (explicit_nonce_verbatim uniformBuilder sampleContract sampleAuthClient () () "key-1"
    (some 56) 1 3 [4] [] [] (some 1000000000) 21000 5 specContract
    (fun _ => .ok 7)).2.2.2.2.2.1⟩

/-- C7: whenever the local and the KMS options builder return the same result,
the local and the KMS dispatcher of commit, of verify-and-execute and of revert
return the same `(txHash, err)` and make the same contract calls. -/
theorem local_kms_interchangeable (b : OptsBuilder B) (inst : ZkBNB B)
    (cli : B.ProviderClient) (authCli : AuthClient) (ctx : B.Context) (kmsSvc : B.KmsClient)
    (keyId : String) (chainID : BigInt) (address : Address)
    (lastBlock : B.StorageStoredBlockInfo) (commitBlocksInfo : List B.ZkBNBCommitBlockInfo)
    (verifyAndExecuteBlocksInfo : List B.ZkBNBVerifyAndExecuteBlockInfo)
    (proofs : List BigInt) (revertBlocks : List B.StorageStoredBlockInfo)
    (gasPrice : BigInt) (gasLimit : Nat) (nonce : Nat)
    (gasPriceK : BigInt) (gasLimitK : Nat) (nonceK : Nat) :
    (b.result (.ConstructTransactOptsWithNonce authCli gasPrice gasLimit nonce) =
        b.result (.ConstructTransactOptsWithNonceAndKms ctx kmsSvc keyId chainID address
          gasPriceK gasLimitK nonceK) →
      (CommitBlocksWithNonce b authCli inst lastBlock commitBlocksInfo
          gasPrice gasLimit nonce).1 =
        (CommitBlocksWithNonceAndKms b ctx kmsSvc keyId chainID address inst lastBlock
          commitBlocksInfo gasPriceK gasLimitK nonceK).1 ∧
      invokes (CommitBlocksWithNonce b authCli inst lastBlock commitBlocksInfo
          gasPrice gasLimit nonce).2 =
        invokes (CommitBlocksWithNonceAndKms b ctx kmsSvc keyId chainID address inst lastBlock
          commitBlocksInfo gasPriceK gasLimitK nonceK).2) ∧
    (b.result (.ConstructTransactOptsWithNonce authCli gasPrice gasLimit nonce) =
        b.result (.ConstructTransactOptsWithNonceAndKms ctx kmsSvc keyId chainID address
          gasPriceK gasLimitK nonceK) →
      (VerifyAndExecuteBlocksWithNonce b authCli inst verifyAndExecuteBlocksInfo proofs
          gasPrice gasLimit nonce).1 =
        (VerifyAndExecuteBlocksWithNonceAndKms b ctx kmsSvc keyId chainID address inst
          verifyAndExecuteBlocksInfo proofs gasPriceK gasLimitK nonceK).1 ∧
      invokes (VerifyAndExecuteBlocksWithNonce b authCli inst verifyAndExecuteBlocksInfo proofs
          gasPrice gasLimit nonce).2 =
        invokes (VerifyAndExecuteBlocksWithNonceAndKms b ctx kmsSvc keyId chainID address inst
          verifyAndExecuteBlocksInfo proofs gasPriceK gasLimitK nonceK).2) ∧
    (b.result (.ConstructTransactOpts cli authCli gasPrice gasLimit) =
        b.result (.ConstructTransactOptsWithKms cli ctx kmsSvc keyId chainID address
          gasPriceK gasLimitK) →
      (RevertBlocks b cli authCli inst revertBlocks gasPrice gasLimit).1 =
        (RevertBlocksWithKms b cli ctx kmsSvc keyId chainID address inst revertBlocks
          gasPriceK gasLimitK).1 ∧
      invokes (RevertBlocks b cli authCli inst revertBlocks gasPrice gasLimit).2 =
        invokes (RevertBlocksWithKms b cli ctx kmsSvc keyId chainID address inst revertBlocks
          gasPriceK gasLimitK).2) := by
  have key : ∀ r₁ r₂ : Request B, b.result r₁.builderCall = b.result r₂.builderCall →
      (∀ opts, r₁.contractCall opts = r₂.contractCall opts) →
      (dispatch b inst r₁).1 = (dispatch b inst r₂).1 ∧
      invokes (dispatch b inst r₁).2 = invokes (dispatch b inst r₂).2 := by
    intro r₁ r₂ hb hc
    rw [dispatch_eq b inst r₁, dispatch_eq b inst r₂, ← hb]
    cases hb₁ : b.result r₁.builderCall with
    | error e => exact ⟨rfl, rfl⟩
    | ok opts =>
      simp only [← hc opts]
      cases inst.result (r₁.contractCall opts) <;> exact ⟨rfl, rfl⟩
  refine ⟨fun h => ?_, fun h => ?_, fun h => ?_⟩
  · exact key (.CommitBlocksWithNonce authCli lastBlock commitBlocksInfo gasPrice gasLimit nonce)
      (.CommitBlocksWithNonceAndKms ctx kmsSvc keyId chainID address lastBlock commitBlocksInfo
        gasPriceK gasLimitK nonceK) h (fun _ => rfl)
  · exact key (.VerifyAndExecuteBlocksWithNonce authCli verifyAndExecuteBlocksInfo proofs
        gasPrice gasLimit nonce)
      (.VerifyAndExecuteBlocksWithNonceAndKms ctx kmsSvc keyId chainID address
        verifyAndExecuteBlocksInfo proofs gasPriceK gasLimitK nonceK) h (fun _ => rfl)
  · exact key (.RevertBlocks cli authCli revertBlocks gasPrice gasLimit)
      (.RevertBlocksWithKms cli ctx kmsSvc keyId chainID address revertBlocks
        gasPriceK gasLimitK) h (fun _ => rfl)

/-- C7, witness: over a builder that returns the
same options on both paths, the two commit dispatchers agree, and so do the
two revert dispatchers. -/
theorem local_kms_interchangeable_witness :
    ((CommitBlocksWithNonce uniformBuilder sampleAuthClient sampleContract 3 [4]
          (some 1000000000) 21000 5).1 =
        (CommitBlocksWithNonceAndKms uniformBuilder () () "key-1" (some 56) 1 sampleContract
          3 [4] (some 1000000000) 21000 5).1 ∧
      invokes (CommitBlocksWithNonce uniformBuilder sampleAuthClient sampleContract 3 [4]
          (some 1000000000) 21000 5).2 =
        invokes (CommitBlocksWithNonceAndKms uniformBuilder () () "key-1" (some 56) 1
          sampleContract 3 [4] (some 1000000000) 21000 5).2) ∧
    ((RevertBlocks uniformBuilder () sampleAuthClient sampleContract [3]
          (some 1000000000) 21000).1 =
        (RevertBlocksWithKms uniformBuilder () () () "key-1" (some 56) 1 sampleContract [3]
          (some 1000000000) 21000).1 ∧
      invokes (RevertBlocks uniformBuilder () sampleAuthClient sampleContract [3]
          (some 1000000000) 21000).2 =
        invokes (RevertBlocksWithKms uniformBuilder () () () "key-1" (some 56) 1
          sampleContract [3] (some 1000000000) 21000).2) :=
  ⟨(local_kms_interchangeable uniformBuilder sampleContract () sampleAuthClient () ()
      "key-1" (some 56) 1 3 [4] [] [] [3] (some 1000000000) 21000 5
      (some 1000000000) 21000 5).1 rfl,
   (local_kms_interchangeable uniformBuilder sampleContract () sampleAuthClient () ()
      "key-1" (some 56) 1 3 [4] [] [] [3] (some 1000000000) 21000 5
      (some 1000000000) 21000 5).2.2 rfl⟩

/-- C8, counterexample: not every operation has both a dispatcher that takes
a nonce and one that does not; no dispatcher of revert takes a nonce. -/
theorem nonce_variants_counterexample :
    (¬ ∀ op : Operation,
      (∃ d : Dispatcher, d.operation = op ∧ d.takesNonce = true) ∧
      (∃ d : Dispatcher, d.operation = op ∧ d.takesNonce = false)) ∧
    (∀ d : Dispatcher, d.operation = .RevertBlocks → d.takesNonce = false) := by
  decide

/-- C8, amended: every one of the nine operations has a dispatcher without a
nonce parameter, whose builder call carries no nonce; a dispatcher with a
caller-supplied nonce exists for commit and for verify-and-execute only; and a
dispatcher's builder call carries a caller's nonce exactly when the
dispatcher's signature has the nonce parameter. -/
theorem nonce_entry_points (b : OptsBuilder B) (inst : ZkBNB B) (r : Request B) :
    (∀ op : Operation, ∃ d : Dispatcher, d.operation = op ∧ d.takesNonce = false) ∧
    (∀ op : Operation, (∃ d : Dispatcher, d.operation = op ∧ d.takesNonce = true) ↔
      (op = .CommitBlocks ∨ op = .VerifyAndExecuteBlocks)) ∧
    (builds (dispatch b inst r).2).map (fun c => c.nonce?.isSome) =
      [r.dispatcher.takesNonce] := by
  refine ⟨by decide, by decide, ?_⟩
  have h : builds (dispatch b inst r).2 = [r.builderCall] := by
    rw [dispatch_trace]
    cases b.result r.builderCall <;> rfl
  rw [h]
  cases r <;> rfl

/-- C9: whenever the remote signing backend produces a signature from a pair
`(r, s)`, the `s` of that signature is at most half the curve order: it is
`curveOrder - s` if `s` is above half the curve order, and `s` otherwise. -/
theorem remote_s_canonical (curveOrder : Int)
    (recover : Nat → Int → Int → Nat → Option Address) (encodeV : Nat → Nat)
    (signingHash : Nat) (expected : Address) (r s : Int) (sig : SignatureTriple)
    (h : remoteSign curveOrder recover encodeV signingHash expected (r, s) = .ok sig) :
    sig.s ≤ halfOrder curveOrder ∧
    (s > halfOrder curveOrder → sig.s = curveOrder - s) ∧
    (s ≤ halfOrder curveOrder → sig.s = s) := by
  have hs : sig.s = normalizeS curveOrder s := by
    unfold remoteSign at h
    simp only at h
    split at h
    · cases h
    · cases h; rfl
  rw [hs]
  unfold normalizeS halfOrder
  refine ⟨?_, fun hgt => ?_, fun hle => ?_⟩
  · split <;> omega
  · rw [if_pos hgt]
  · rw [if_neg (by omega)]

/-- C9, witness: on secp256k1 the pair `(5, n - 1)` is
signed with `s = 1`. -/
theorem remote_s_canonical_witness :
    remoteSign secp256k1N sampleRecover (fun v => v + 27) 0 9 (5, secp256k1N - 1) =
      .ok { r := 5, s := 1, v := 28 } ∧
    (1 : Int) ≤ halfOrder secp256k1N :=
  ⟨by rfl,
   (remote_s_canonical secp256k1N sampleRecover (fun v => v + 27) 0 9 5 (secp256k1N - 1)
      { r := 5, s := 1, v := 28 } (by rfl)).1⟩

/-- C10: every dispatcher calls its options builder exactly once, first, and
the contract at most once; if options construction fails, the contract is not
called and the dispatcher returns that error. -/
theorem dispatch_call_counts (b : OptsBuilder B) (inst : ZkBNB B) (r : Request B) :
    builds (dispatch b inst r).2 = [r.builderCall] ∧
    (dispatch b inst r).2.head? = some (.build r.builderCall) ∧
    (invokes (dispatch b inst r).2).length ≤ 1 ∧
    (∀ e, b.result r.builderCall = .error e →
      invokes (dispatch b inst r).2 = [] ∧ (dispatch b inst r).1 = ("", some e)) := by
  refine ⟨?_, ?_, ?_, fun e hb => ?_⟩
  · rw [dispatch_trace]; cases b.result r.builderCall <;> rfl
  · rw [dispatch_trace]; cases b.result r.builderCall <;> rfl
  · rw [dispatch_trace]; cases b.result r.builderCall <;> simp [invokes]
  · rw [dispatch_of_build_error b inst r e hb]; exact ⟨rfl, rfl⟩

/-- C10, witness: `VerifyAndExecuteBlocks` over a failing
builder makes no contract call. -/
theorem dispatch_call_counts_witness :
    invokes (VerifyAndExecuteBlocks failingBuilder () sampleAuthClient sampleContract
        [3] [some 4] none 21000).2 = [] ∧
    (VerifyAndExecuteBlocks failingBuilder () sampleAuthClient sampleContract
        [3] [some 4] none 21000).1 = ("", some (.named "nonce lookup failed")) :=
  (dispatch_call_counts failingBuilder sampleContract
    (.VerifyAndExecuteBlocks () sampleAuthClient [3] [some 4] none 21000)).2.2.2 _ rfl

end EthRpc
